import Mathlib

/-!
Verification of the ripping orchestration core of `DvDRipper.py`.

The Python source is shallowly embedded: Python strings are Lean `String`s
and the string primitives used by the source (`split`, `strip`,
`splitlines`, `startswith`, `replace`, `int`) are re-implemented as
structurally recursive, executable functions; external processes are
modelled by their observable results (exit code, stdout text, per-call
filesystem answers); side effects (progress-bar updates, renames,
notifications, `sys.exit`) are reified as values and event traces; a
raised Python exception is an `Except.error`.
-/

namespace DvDRipper

/-- Python whitespace test for `str.strip()` and `int()`; Lean's
`Char.isWhitespace` covers the ASCII whitespace these inputs can carry. -/
def pyIsSpace (c : Char) : Bool := c.isWhitespace

/-- Drop the characters satisfying `p` from both ends of a character list
(the core of Python's two-sided `str.strip`). -/
def stripEnds (p : Char → Bool) (cs : List Char) : List Char :=
  ((cs.dropWhile p).reverse.dropWhile p).reverse

/-- Python `s.strip()`: strip whitespace from both ends. -/
def pyStrip (s : String) : String := String.mk (stripEnds pyIsSpace s.toList)

/-- Python `s.strip(<double-quote>)`: strip `"` characters from both ends. -/
def pyStripQuote (s : String) : String :=
  String.mk (stripEnds (fun c => c = '"') s.toList)

/-- Python `s.split(sep)` for a one-character separator, on character
lists: splitting `"a,,b"` at `,` gives `["a","","b"]`, and splitting the
empty string gives `[""]`. -/
def splitChar (sep : Char) : List Char → List (List Char)
  | [] => [[]]
  | c :: cs =>
    match splitChar sep cs with
    | [] => if c = sep then [[], []] else [[c]]
    | h :: t => if c = sep then [] :: h :: t else (c :: h) :: t

/-- Python `s.split(sep)` on strings. -/
def pySplit (sep : Char) (s : String) : List String :=
  (splitChar sep s.toList).map String.mk

/-- Python `s.splitlines()` for `\n`-separated text (`subprocess.run`
with `text=True` has already normalised `\r\n` to `\n`): like splitting
on `\n` but without a trailing empty line, and `[]` on the empty string. -/
def pySplitLines (s : String) : List String :=
  if s = "" then []
  else
    let parts := pySplit '\n' s
    if parts.getLast? = some "" then parts.dropLast else parts

/-- Python `s.startswith(pre)`. -/
def pyStartsWith (pre s : String) : Bool := pre.toList.isPrefixOf s.toList

/-- Python `s.replace(pat, "")` on character lists: delete every
occurrence of `pat`, scanning left to right; `fuel` bounds the recursion
by the length of the remaining input (each step consumes at least one
character, so `fuel = length` never runs out). -/
def deleteOccsAux (pat : List Char) : Nat → List Char → List Char
  | 0, cs => cs
  | _ + 1, [] => []
  | fuel + 1, c :: cs =>
    if pat.isPrefixOf (c :: cs) then
      deleteOccsAux pat fuel (List.drop (pat.length - 1) cs)
    else
      c :: deleteOccsAux pat fuel cs

/-- Python `s.replace(pat, "")` for a non-empty `pat`. -/
def pyDeletePat (pat : String) (s : String) : String :=
  String.mk (deleteOccsAux pat.toList s.toList.length s.toList)

/-- Decimal value of a digit list, most significant digit first. -/
def digitsVal (cs : List Char) : Nat :=
  cs.foldl (fun a c => a * 10 + (c.toNat - 48)) 0

/-- Python `int(s)` as a total function: optional surrounding whitespace,
an optional sign, then one or more decimal digits; any other shape raises
`ValueError`, modelled as `none`.  (Python's underscore digit grouping
and non-ASCII digits are not modelled; disc-info size fields never use
them.) -/
def pyInt? (s : String) : Option Int :=
  match stripEnds pyIsSpace s.toList with
  | [] => none
  | '-' :: rest =>
    if rest ≠ [] ∧ rest.all Char.isDigit then some (-(digitsVal rest : Int)) else none
  | '+' :: rest =>
    if rest ≠ [] ∧ rest.all Char.isDigit then some ((digitsVal rest : Int)) else none
  | cs =>
    if cs.all Char.isDigit then some ((digitsVal cs : Int)) else none

/-- The stripped `TINFO:` lines of the disc-info stdout
(`DvDRipper.py` line 47). -/
def tinfoLines (disc_info_output : String) : List String :=
  ((pySplitLines disc_info_output).map pyStrip).filter (fun l => pyStartsWith "TINFO:" l)

/-- The loop body of `get_largest_title` (`DvDRipper.py` lines 51-64).
The state is `(largest_title_index, largest_title_size)`, with `none`
standing for the `-1` sentinel of the source. -/
def stepLine (st : Option String × Int) (line : String) : Option String × Int :=
  let parts := pySplit ',' line
  if 4 ≤ parts.length then
    let title_index_str := pyStrip (pyDeletePat "TINFO:" (parts.getD 0 ""))
    let info_type := pyStrip (parts.getD 1 "")
    if info_type = "11" then
      let size_str := pyStripQuote (pyStrip (parts.getD 3 ""))
      let file_size := (pyInt? size_str).getD 0
      if st.2 < file_size then (some title_index_str, file_size) else st
    else st
  else st

/-- `get_largest_title` (`DvDRipper.py` lines 29-69), as a function of the
observable result of the `makemkvcon64 info` process: its exit code and
its stdout text.  An `Except.error` models a raised exception. -/
def get_largest_title (returncode : Int) (stdout : String) :
    Except String (String × Int) :=
  if returncode ≠ 0 ∨ stdout = "" then
    Except.error "MakeMKV returned an error. Please ensure MakeMKV is installed and the DVD is readable."
  else
    let st := (tinfoLines stdout).foldl stepLine (none, 0)
    match st.1 with
    | none => Except.error "Could not find any titles on the DVD."
    | some idx => Except.ok (idx, st.2)

/-- The (title identifier, parsed size) pair carried by one `TINFO:` line
when it is a "file size" (type `11`) record, and `none` otherwise: the
per-line content of `stepLine`, split out so the selection fold can be
specified over the record list. -/
def fileSizeRecord? (line : String) : Option (String × Int) :=
  let parts := pySplit ',' line
  if 4 ≤ parts.length then
    let title_index_str := pyStrip (pyDeletePat "TINFO:" (parts.getD 0 ""))
    let info_type := pyStrip (parts.getD 1 "")
    if info_type = "11" then
      some (title_index_str, (pyInt? (pyStripQuote (pyStrip (parts.getD 3 "")))).getD 0)
    else none
  else none

/-- All "file size" records of a disc-info text, in document order. -/
def fileSizeRecords (stdout : String) : List (String × Int) :=
  (tinfoLines stdout).filterMap fileSizeRecord?

/-- `stepLine` restricted to an already-parsed record: keep the candidate
with the strictly larger size. -/
def selectStep (st : Option String × Int) (r : String × Int) : Option String × Int :=
  if st.2 < r.2 then (some r.1, r.2) else st

/-- Running maximum of the record sizes, seeded with `m` (the
`largest_title_size` accumulator). -/
def runMax (rs : List (String × Int)) (m : Int) : Int :=
  rs.foldl (fun a r => max a r.2) m

/-- Retry budget (`DvDRipper.py` line 10). -/
def ATTEMPTS : Nat := 3

/-- Observable effects of `error_handler` (`DvDRipper.py` lines 20-27):
the message printed, the notifications attempted through `send_message`
as (title, body) pairs, and the status passed to `sys.exit`. -/
structure EscalationEffect where
  printed : String
  messagesSent : List (String × String)
  exitCode : Nat
  deriving DecidableEq

/-- `error_handler` (`DvDRipper.py` lines 20-27): print the message,
attempt exactly one "Movie ERROR" notification (a delivery failure is
only printed, never re-raised), and exit the whole process with status 1.
Because `sys.exit` raises `SystemExit`, control never returns to the
caller: in the model the effect value is final. -/
def error_handler (message : String) : EscalationEffect :=
  { printed := message, messagesSent := [("Movie ERROR", message)], exitCode := 1 }

/-- Result of one call to `run`: the wrapped operation's value, or the
terminal escalation, each together with how many times the operation was
invoked.  The surrounding `Option` is `none` when the `for` loop falls
through without returning, which cannot happen for `ATTEMPTS = 3`. -/
inductive RunOutcome (α : Type) where
  | ok (value : α) (calls : Nat)
  | failed (eff : EscalationEffect) (calls : Nat)
  deriving DecidableEq

/-- The `for i in range(1, ATTEMPTS + 1)` loop of `run`
(`DvDRipper.py` lines 166-175).  The wrapped operation is modelled by the
attempt-indexed oracle `f` (the source calls it with identical arguments
each time; the external world may answer differently per attempt);
`calls` counts the invocations made so far. -/
def runLoop {α : Type} (f : Nat → Except String α) (fname : String) :
    List Nat → Nat → Option (RunOutcome α)
  | [], _ => none
  | i :: rest, calls =>
    match f i with
    | Except.ok out => some (RunOutcome.ok out (calls + 1))
    | Except.error e =>
      if i < ATTEMPTS then
        runLoop f fname rest (calls + 1)
      else
        some (RunOutcome.failed
          (error_handler s!"Error running: {fname}\nAttempts: {ATTEMPTS}\nError: {e}")
          (calls + 1))

/-- `run` (`DvDRipper.py` lines 166-175). -/
def run {α : Type} (f : Nat → Except String α) (fname : String) :
    Option (RunOutcome α) :=
  runLoop f fname (List.range' 1 ATTEMPTS) 0

/-- Python `max(files, key=getsize)` after the first element's key is
known: evaluate the key left to right, keep the first maximal element
(replace only on strictly greater), propagate the first raised key
error. -/
def pyMaxByAux (key : String → Except String Int) (best : String) (bestKey : Int) :
    List String → Except String String
  | [] => Except.ok best
  | y :: ys => do
    let ky ← key y
    if bestKey < ky then pyMaxByAux key y ky ys else pyMaxByAux key best bestKey ys

/-- Python `max(files, key=getsize)` (`DvDRipper.py` line 81); raises on
an empty sequence. -/
def pyMaxBy (key : String → Except String Int) : List String → Except String String
  | [] => Except.error "ValueError: max() iterable argument is empty"
  | x :: xs => do
    let kx ← key x
    pyMaxByAux key x kx xs

/-- Filesystem answers for one iteration of the polling loop: the result
of the `glob` listing, and the result of each `os.path.getsize` call made
(a) while `max` scans the listing and (b) when the selected file's size
is re-read inside the `try` block.  Two separate oracles, because the
filesystem can change between those calls. -/
structure MonitorTick where
  listing : Except String (List String)
  sizeAtSelect : String → Except String Int
  sizeAtRead : String → Except String Int

/-- Result of one iteration of the polling loop: the loop continues with
an updated `current_progress` (`reported` tells whether a new value was
pushed to the progress bar), or an uncaught exception escapes the loop
body and kills the monitor. -/
inductive TickResult where
  | normal (current : Int) (reported : Option Int)
  | fatal (err : String)
  deriving DecidableEq

/-- One iteration of the `while` body of `poll_file_size_progress`
(`DvDRipper.py` lines 77-90).  Note which calls sit inside the `try`
block: only the second `getsize` of the already-selected file is guarded;
the `glob` call and the `getsize` calls made by `max`'s key (line 81) are
outside it. -/
def tick (t : MonitorTick) (current_progress : Int) : TickResult :=
  match t.listing with
  | Except.error e => TickResult.fatal e
  | Except.ok mkv_files =>
    match mkv_files with
    | [] => TickResult.normal current_progress none
    | _ :: _ =>
      match pyMaxBy t.sizeAtSelect mkv_files with
      | Except.error e => TickResult.fatal e
      | Except.ok current_file =>
        match t.sizeAtRead current_file with
        | Except.error _ => TickResult.normal current_progress none
        | Except.ok progress =>
          if current_progress < progress then
            TickResult.normal progress (some progress)
          else
            TickResult.normal current_progress none

/-- The polling loop of `poll_file_size_progress` run over a finite
schedule of ticks (the iterations performed before `stop_event` is
observed set): the progress values reported to the bar, in order, and
the uncaught exception that ended the loop early, if any. -/
def pollRun : List MonitorTick → Int → List Int × Option String
  | [], _ => ([], none)
  | t :: rest, current =>
    match tick t current with
    | TickResult.fatal e => ([], some e)
    | TickResult.normal newCur rep =>
      let r := pollRun rest newCur
      (rep.toList ++ r.1, r.2)

/-- `os.path.join` with a fixed separator (the separator choice is
immaterial to the properties proved here). -/
def pathJoin (dir name : String) : String := dir ++ "/" ++ name

/-- Observable post-`wait` events of `rip_dvd`, in program order. -/
inductive RipEvent where
  | stopSet
  | monitorJoined
  | barSet (n : Int)
  | barRefreshed
  | barClosed
  | renamed (src : String) (dst : String)
  deriving DecidableEq

/-- Observable environment of one `rip_dvd` call after the ripping
process exits: its exit code, the `(path, mtime)` pairs found by the
final `glob`, and the result of the attempted `os.rename`. -/
structure RipWorld where
  returncode : Int
  mkvFiles : List (String × Int)
  renameResult : Except String Unit

/-- Key-descending comparison on `(path, mtime)` pairs: `a` may precede
`b` when `b`'s mtime is at most `a`'s. -/
def mtimeGe (a b : String × Int) : Prop := b.2 ≤ a.2

instance : DecidableRel mtimeGe := fun a b => Int.decLe b.2 a.2

/-- `sorted(mkv_files, key=os.path.getmtime, reverse=True)`
(`DvDRipper.py` lines 127-128): a stable sort putting the
most-recently-modified file first (embedded as a stable insertion sort,
which matches Python's stable descending sort). -/
def newestFirst (files : List (String × Int)) : List (String × Int) :=
  List.insertionSort mtimeGe files

/-- `rip_dvd` from `process.wait()` on (`DvDRipper.py` lines 115-140):
the emitted events in program order, and the returned path or the raised
error.  The progress-bar events (lines 116-121) precede the exit-code
check (line 123) exactly as in the source. -/
def rip_dvd (w : RipWorld) (output_file_name output_directory : String)
    (expected_file_size : Int) : List RipEvent × Except String String :=
  let pre : List RipEvent :=
    [RipEvent.stopSet, RipEvent.monitorJoined, RipEvent.barSet expected_file_size,
     RipEvent.barRefreshed, RipEvent.barClosed]
  if w.returncode ≠ 0 then
    (pre, Except.error "MakeMKV returned an error during ripping.")
  else
    match newestFirst w.mkvFiles with
    | [] => (pre, Except.error "No MKV file found after ripping.")
    | ripped :: _ =>
      let new_file_path := pathJoin output_directory (output_file_name ++ ".mkv")
      match w.renameResult with
      | Except.ok _ =>
        (pre ++ [RipEvent.renamed ripped.1 new_file_path], Except.ok new_file_path)
      | Except.error e =>
        (pre, Except.error ("Error renaming MKV file: " ++ e))

/-- The rename events of a `rip_dvd` trace. -/
def isRenameEvent : RipEvent → Bool
  | RipEvent.renamed _ _ => true
  | _ => false

/-- A tick whose listing still shows `a.mkv` although the file has
vanished: the `getsize` call made by `max`'s key raises. -/
def vanishedFileTick : MonitorTick :=
  { listing := Except.ok ["a.mkv"]
    sizeAtSelect := fun _ => Except.error "FileNotFoundError: a.mkv"
    sizeAtRead := fun _ => Except.error "FileNotFoundError: a.mkv" }

/-- A tick where selection succeeds but the guarded re-read of the
selected file's size raises. -/
def readErrorTick : MonitorTick :=
  { listing := Except.ok ["a.mkv", "b.mkv"]
    sizeAtSelect := fun _ => Except.ok 5
    sizeAtRead := fun _ => Except.error "OSError: stale handle" }

/-- A successful rip environment: exit code 0, two candidate files with
the tool-named one modified last, and a rename that succeeds. -/
def okRipWorld : RipWorld :=
  { returncode := 0
    mkvFiles := [("leftover.mkv", 10), ("title_t00.mkv", 25)]
    renameResult := Except.ok () }

/-- A failed rip environment: the ripping process exited with code 1. -/
def failedRipWorld : RipWorld :=
  { returncode := 1
    mkvFiles := []
    renameResult := Except.ok () }

/-- An operation that fails on its first attempt and succeeds afterwards. -/
def retryOnceOp : Nat → Except String Nat :=
  fun j => if j = 1 then Except.error "transient" else Except.ok 7

/-- An operation that fails on every attempt. -/
def alwaysFailOp : Nat → Except String Unit :=
  fun _ => Except.error "disc read failed"

instance : IsTotal (String × Int) mtimeGe := ⟨fun a b => le_total b.2 a.2⟩

instance : IsTrans (String × Int) mtimeGe := ⟨fun _ _ _ hab hbc => le_trans hbc hab⟩

/-- `stepLine` is `selectStep` on the line's parsed record, when there is
one, and the identity otherwise. -/
theorem stepLine_eq_selectStep (st : Option String × Int) (line : String) :
    stepLine st line =
      match fileSizeRecord? line with
      | none => st
      | some r => selectStep st r := by
  simp only [stepLine, fileSizeRecord?, selectStep]
  by_cases h1 : 4 ≤ (pySplit ',' line).length
  · rw [if_pos h1, if_pos h1]
    by_cases h2 : pyStrip ((pySplit ',' line).getD 1 "") = "11"
    · rw [if_pos h2, if_pos h2]
    · rw [if_neg h2, if_neg h2]
  · rw [if_neg h1, if_neg h1]

/-- The line fold of `get_largest_title` equals the record fold over the
parsed "file size" records. -/
theorem foldl_stepLine (lines : List String) :
    ∀ st, lines.foldl stepLine st =
      (lines.filterMap fileSizeRecord?).foldl selectStep st := by
  induction lines with
  | nil => intro st; rfl
  | cons l ls ih =>
    intro st
    rw [List.foldl_cons, List.filterMap_cons, stepLine_eq_selectStep]
    cases h : fileSizeRecord? l with
    | none => exact ih st
    | some r => exact ih (selectStep st r)

theorem runMax_cons (r : String × Int) (rs : List (String × Int)) (m : Int) :
    runMax (r :: rs) m = runMax rs (max m r.2) := rfl

theorem le_runMax (rs : List (String × Int)) : ∀ m : Int, m ≤ runMax rs m := by
  induction rs with
  | nil => intro m; exact le_refl m
  | cons r rs ih =>
    intro m
    rw [runMax_cons]
    exact le_trans (le_max_left m r.2) (ih (max m r.2))

theorem snd_le_runMax (r : String × Int) :
    ∀ (rs : List (String × Int)) (m : Int), r ∈ rs → r.2 ≤ runMax rs m := by
  intro rs
  induction rs with
  | nil => intro m h; cases h
  | cons y ys ih =>
    intro m h
    rw [runMax_cons]
    rcases List.mem_cons.mp h with h1 | h2
    · calc r.2 = y.2 := by rw [h1]
        _ ≤ max m y.2 := le_max_right m y.2
        _ ≤ runMax ys (max m y.2) := le_runMax ys (max m y.2)
    · exact ih (max m y.2) h2

theorem runMax_of_le :
    ∀ (rs : List (String × Int)) (m : Int), (∀ r ∈ rs, r.2 ≤ m) → runMax rs m = m := by
  intro rs
  induction rs with
  | nil => intro m _; rfl
  | cons y ys ih =>
    intro m h
    rw [runMax_cons, max_eq_left (h y (List.mem_cons_self y ys))]
    exact ih m (fun r hr => h r (List.mem_cons_of_mem y hr))

/-- When no record beats the accumulator, the fold leaves the state
unchanged (in particular, size-0 records never override a positive
candidate). -/
theorem foldl_selectStep_of_le :
    ∀ (rs : List (String × Int)) (st : Option String × Int),
      (∀ r ∈ rs, r.2 ≤ st.2) → rs.foldl selectStep st = st := by
  intro rs
  induction rs with
  | nil => intro st _; rfl
  | cons y ys ih =>
    intro st h
    rw [List.foldl_cons]
    have hy : selectStep st y = st := by
      unfold selectStep
      rw [if_neg (not_lt.mpr (h y (List.mem_cons_self y ys)))]
    rw [hy]
    exact ih st (fun r hr => h r (List.mem_cons_of_mem y hr))

/-- The selection fold keeps the first record attaining the running
maximum, provided some record strictly beats the seed. -/
theorem foldl_selectStep_find :
    ∀ (rs : List (String × Int)) (idx : Option String) (m : Int),
      (∃ r ∈ rs, m < r.2) →
      ∃ r, rs.find? (fun x => x.2 == runMax rs m) = some r ∧
        rs.foldl selectStep (idx, m) = (some r.1, r.2) ∧
        r.2 = runMax rs m := by
  intro rs
  induction rs with
  | nil =>
    intro idx m h
    rcases h with ⟨r, hr, _⟩
    cases hr
  | cons y ys ih =>
    intro idx m h
    rw [List.foldl_cons]
    by_cases hy : m < y.2
    · have hsel : selectStep (idx, m) y = (some y.1, y.2) := by
        simp [selectStep, hy]
      have hmax : runMax (y :: ys) m = runMax ys y.2 := by
        rw [runMax_cons, max_eq_right (le_of_lt hy)]
      rw [hsel]
      by_cases h2 : ∃ r ∈ ys, y.2 < r.2
      · rcases ih (some y.1) y.2 h2 with ⟨r, hfind, hfold, hval⟩
        have hylt : y.2 < runMax ys y.2 := by
          rcases h2 with ⟨r2, hr2, hlt2⟩
          exact lt_of_lt_of_le hlt2 (snd_le_runMax r2 ys y.2 hr2)
        refine ⟨r, ?_, hfold, by rw [hmax]; exact hval⟩
        rw [List.find?_cons_of_neg, hmax]
        · exact hfind
        · rw [hmax]
          simp only [beq_iff_eq]
          exact ne_of_lt hylt
      · push_neg at h2
        have h2' : ∀ r ∈ ys, r.2 ≤ y.2 := h2
        have hm : runMax ys y.2 = y.2 := runMax_of_le ys y.2 h2'
        refine ⟨y, ?_, ?_, ?_⟩
        · apply List.find?_cons_of_pos
          simp [hmax, hm]
        · exact foldl_selectStep_of_le ys (some y.1, y.2) h2'
        · rw [hmax, hm]
    · have hsel : selectStep (idx, m) y = (idx, m) := by
        simp [selectStep, hy]
      have h' : ∃ r ∈ ys, m < r.2 := by
        rcases h with ⟨r, hr, hlt⟩
        rcases List.mem_cons.mp hr with h1 | h2
        · exact absurd (h1 ▸ hlt) hy
        · exact ⟨r, h2, hlt⟩
      have hmax : runMax (y :: ys) m = runMax ys m := by
        rw [runMax_cons, max_eq_left (not_lt.mp hy)]
      rcases ih idx m h' with ⟨r, hfind, hfold, hval⟩
      have hylt : m < runMax ys m := by
        rcases h' with ⟨r2, hr2, hlt2⟩
        exact lt_of_lt_of_le hlt2 (snd_le_runMax r2 ys m hr2)
      refine ⟨r, ?_, by rw [hsel]; exact hfold, by rw [hmax]; exact hval⟩
      rw [List.find?_cons_of_neg, hmax]
      · exact hfind
      · rw [hmax]
        simp only [beq_iff_eq]
        exact ne_of_lt (lt_of_le_of_lt (not_lt.mp hy) hylt)

/-- `get_largest_title` on a healthy process result with at least one
strictly positive "file size" record: it returns the first record
attaining the maximum size. -/
theorem get_largest_title_spec_pos (returncode : Int) (stdout : String)
    (h0 : returncode = 0) (h1 : stdout ≠ "")
    (hpos : ∃ r ∈ fileSizeRecords stdout, 0 < r.2) :
    ∃ r, (fileSizeRecords stdout).find?
        (fun x => x.2 == runMax (fileSizeRecords stdout) 0) = some r ∧
      get_largest_title returncode stdout = Except.ok (r.1, r.2) ∧
      r.2 = runMax (fileSizeRecords stdout) 0 := by
  rcases foldl_selectStep_find (fileSizeRecords stdout) none 0 hpos with
    ⟨r, hfind, hfold, hval⟩
  refine ⟨r, hfind, ?_, hval⟩
  have hcond : ¬(returncode ≠ 0 ∨ stdout = "") := by simp [h0, h1]
  have hst : (tinfoLines stdout).foldl stepLine (none, 0) = (some r.1, r.2) := by
    rw [foldl_stepLine]
    exact hfold
  simp only [get_largest_title, if_neg hcond, hst]

/-- `get_largest_title` on a healthy process result all of whose records
have non-positive size: the `-1` sentinel survives and the no-titles
error is raised. -/
theorem get_largest_title_spec_nonpos (returncode : Int) (stdout : String)
    (h0 : returncode = 0) (h1 : stdout ≠ "")
    (hz : ∀ r ∈ fileSizeRecords stdout, r.2 ≤ 0) :
    get_largest_title returncode stdout =
      Except.error "Could not find any titles on the DVD." := by
  have hcond : ¬(returncode ≠ 0 ∨ stdout = "") := by simp [h0, h1]
  have hst : (tinfoLines stdout).foldl stepLine (none, 0) = (none, 0) := by
    rw [foldl_stepLine]
    exact foldl_selectStep_of_le _ (none, 0) hz
  simp only [get_largest_title, if_neg hcond, hst]

/-- A non-fatal tick either reports nothing and keeps `current_progress`,
or reports exactly the new strictly larger value it switches to. -/
theorem tick_normal_inv (t : MonitorTick) (cur n : Int) (rep : Option Int)
    (h : tick t cur = TickResult.normal n rep) :
    (rep = none ∧ n = cur) ∨ (rep = some n ∧ cur < n) := by
  cases hl : t.listing with
  | error e =>
    rw [show tick t cur = TickResult.fatal e from by simp [tick, hl]] at h
    exact TickResult.noConfusion h
  | ok files =>
    cases files with
    | nil =>
      rw [show tick t cur = TickResult.normal cur none from by simp [tick, hl]] at h
      injection h with hn hrep
      exact Or.inl ⟨hrep.symm, hn.symm⟩
    | cons x xs =>
      cases hm : pyMaxBy t.sizeAtSelect (x :: xs) with
      | error e =>
        rw [show tick t cur = TickResult.fatal e from by simp [tick, hl, hm]] at h
        exact TickResult.noConfusion h
      | ok cf =>
        cases hr : t.sizeAtRead cf with
        | error e2 =>
          rw [show tick t cur = TickResult.normal cur none from by
            simp [tick, hl, hm, hr]] at h
          injection h with hn hrep
          exact Or.inl ⟨hrep.symm, hn.symm⟩
        | ok p =>
          by_cases hlt : cur < p
          · rw [show tick t cur = TickResult.normal p (some p) from by
              simp [tick, hl, hm, hr, hlt]] at h
            injection h with hn hrep
            exact Or.inr ⟨by rw [← hrep, hn], hn ▸ hlt⟩
          · rw [show tick t cur = TickResult.normal cur none from by
              simp [tick, hl, hm, hr, hlt]] at h
            injection h with hn hrep
            exact Or.inl ⟨hrep.symm, hn.symm⟩

/-- Invariant of the polling loop: every value reported is strictly above
the seed, and the reported sequence is strictly increasing. -/
theorem pollRun_invariant :
    ∀ (ticks : List MonitorTick) (cur : Int),
      (∀ x ∈ (pollRun ticks cur).1, cur < x) ∧
      List.Pairwise (· < ·) (pollRun ticks cur).1 := by
  intro ticks
  induction ticks with
  | nil =>
    intro cur
    exact ⟨fun x hx => absurd hx (by simp [pollRun]), by simp [pollRun]⟩
  | cons t rest ih =>
    intro cur
    cases ht : tick t cur with
    | fatal e =>
      refine ⟨fun x hx => absurd hx ?_, ?_⟩ <;> simp [pollRun, ht]
    | normal n rep =>
      rcases tick_normal_inv t cur n rep ht with ⟨hrep, hn⟩ | ⟨hrep, hlt⟩
      · subst hrep
        subst hn
        constructor
        · intro x hx
          simp only [pollRun, ht, Option.toList_none, List.nil_append] at hx
          exact (ih n).1 x hx
        · simpa only [pollRun, ht, Option.toList_none, List.nil_append] using (ih n).2
      · subst hrep
        constructor
        · intro x hx
          simp only [pollRun, ht, Option.toList_some, List.singleton_append,
            List.mem_cons] at hx
          rcases hx with rfl | hx
          · exact hlt
          · exact lt_trans hlt ((ih n).1 x hx)
        · simp only [pollRun, ht, Option.toList_some, List.singleton_append]
          exact List.Pairwise.cons (fun x hx => (ih n).1 x hx) (ih n).2

theorem newestFirst_perm (files : List (String × Int)) :
    List.Perm (newestFirst files) files :=
  List.perm_insertionSort mtimeGe files

theorem newestFirst_sorted (files : List (String × Int)) :
    List.Pairwise mtimeGe (newestFirst files) :=
  List.sorted_insertionSort mtimeGe files

/-- The head of the mtime-descending sort belongs to the original listing
and carries its maximal mtime. -/
theorem newestFirst_head_max (files : List (String × Int))
    (ripped : String × Int) (rest : List (String × Int))
    (hs : newestFirst files = ripped :: rest) :
    ripped ∈ files ∧ ∀ x ∈ files, x.2 ≤ ripped.2 := by
  have hperm := newestFirst_perm files
  constructor
  · exact hperm.subset (by rw [hs]; exact List.mem_cons_self _ _)
  · intro x hx
    have hx' : x ∈ newestFirst files := hperm.symm.subset hx
    rw [hs] at hx'
    rcases List.mem_cons.mp hx' with rfl | hmem
    · exact le_refl _
    · have hsort := newestFirst_sorted files
      rw [hs] at hsort
      exact (List.pairwise_cons.mp hsort).1 x hmem

/-- C1 (amended): for a disc-info result with exit code 0, non-empty
stdout, and at least one "file size" record of strictly positive parsed
size, `get_largest_title` returns the identifier and size of the first
record in document order attaining the maximum size (the comparison is a
strict `<` against the accumulator, so earlier records win ties); in
particular, on the two-record scenario text it returns title `"1"` with
size 1200000000.  (The positivity hypothesis is forced by the code: when
every record parses to size 0 the `-1` sentinel survives and selection
raises instead of returning, see the counterexample.) -/
theorem selection_returns_first_max (returncode : Int) (stdout : String)
    (h0 : returncode = 0) (h1 : stdout ≠ "")
    (hpos : ∃ r ∈ fileSizeRecords stdout, 0 < r.2) :
    (∃ r, (fileSizeRecords stdout).find?
        (fun x => x.2 == runMax (fileSizeRecords stdout) 0) = some r ∧
      get_largest_title returncode stdout = Except.ok (r.1, r.2) ∧
      r.2 = runMax (fileSizeRecords stdout) 0) ∧
    get_largest_title 0 "TINFO:0,11,0,\"500000000\"\nTINFO:1,11,0,\"1200000000\"" =
      Except.ok ("1", 1200000000) :=
  ⟨get_largest_title_spec_pos returncode stdout h0 h1 hpos, rfl⟩

/-- C1 witness: the amended theorem applied to the scenario input itself. -/
theorem selection_returns_first_max_witness :
    ((0 : Int) = 0 ∧
      ("TINFO:0,11,0,\"500000000\"\nTINFO:1,11,0,\"1200000000\"" : String) ≠ "" ∧
      ∃ r ∈ fileSizeRecords "TINFO:0,11,0,\"500000000\"\nTINFO:1,11,0,\"1200000000\"",
        0 < r.2) ∧
    ((∃ r, (fileSizeRecords "TINFO:0,11,0,\"500000000\"\nTINFO:1,11,0,\"1200000000\"").find?
        (fun x => x.2 ==
          runMax (fileSizeRecords "TINFO:0,11,0,\"500000000\"\nTINFO:1,11,0,\"1200000000\"") 0) =
          some r ∧
      get_largest_title 0 "TINFO:0,11,0,\"500000000\"\nTINFO:1,11,0,\"1200000000\"" =
        Except.ok (r.1, r.2) ∧
      r.2 = runMax (fileSizeRecords "TINFO:0,11,0,\"500000000\"\nTINFO:1,11,0,\"1200000000\"") 0) ∧
    get_largest_title 0 "TINFO:0,11,0,\"500000000\"\nTINFO:1,11,0,\"1200000000\"" =
      Except.ok ("1", 1200000000)) :=
  ⟨⟨rfl, by decide, by decide⟩,
    selection_returns_first_max 0
      "TINFO:0,11,0,\"500000000\"\nTINFO:1,11,0,\"1200000000\"" rfl (by decide) (by decide)⟩

/-- C1 counterexample: a disc-info text with two "file size" records,
both of size 0, on which the claim as stated would demand a returned
title; the code instead raises the no-titles error, because the strict
`0 < size` comparison never replaces the `-1` sentinel. -/
theorem selection_returns_first_max_cex :
    fileSizeRecords "TINFO:0,11,0,\"0\"\nTINFO:1,11,0,\"0\"" = [("0", 0), ("1", 0)] ∧
    get_largest_title 0 "TINFO:0,11,0,\"0\"\nTINFO:1,11,0,\"0\"" =
      Except.error "Could not find any titles on the DVD." :=
  ⟨rfl, rfl⟩

/-- C4 (amended): on a healthy process result whose disc-info text has at
least one "file size" record but all of whose records parse to size 0,
`get_largest_title` does not return a title: the `-1` sentinel survives
the fold and the no-titles error is raised.  Selection succeeds only when
some record has strictly positive parsed size. -/
theorem all_zero_disc_raises (returncode : Int) (stdout : String)
    (h0 : returncode = 0) (h1 : stdout ≠ "")
    (_hne : fileSizeRecords stdout ≠ [])
    (hz : ∀ r ∈ fileSizeRecords stdout, r.2 = 0) :
    get_largest_title returncode stdout =
      Except.error "Could not find any titles on the DVD." :=
  get_largest_title_spec_nonpos returncode stdout h0 h1
    (fun r hr => le_of_eq (hz r hr))

/-- C4 witness: an all-zero disc (its single record's size field is the
unparseable `"abc"`, hence parsed size 0) raises the no-titles error. -/
theorem all_zero_disc_raises_witness :
    (fileSizeRecords "TINFO:0,11,0,\"abc\"" ≠ [] ∧
      ∀ r ∈ fileSizeRecords "TINFO:0,11,0,\"abc\"", r.2 = 0) ∧
    get_largest_title 0 "TINFO:0,11,0,\"abc\"" =
      Except.error "Could not find any titles on the DVD." :=
  ⟨⟨by decide, by decide⟩,
    all_zero_disc_raises 0 "TINFO:0,11,0,\"abc\"" rfl (by decide) (by decide) (by decide)⟩

/-- C4 counterexample: a disc-info text with one "file size" record whose
parsed size is 0 (`"000"`); the claim as stated says selection still
succeeds and returns some title, but the code raises the no-titles
error. -/
theorem all_zero_disc_raises_cex :
    fileSizeRecords "TINFO:3,11,0,\"000\"" = [("3", 0)] ∧
    get_largest_title 0 "TINFO:3,11,0,\"000\"" =
      Except.error "Could not find any titles on the DVD." :=
  ⟨rfl, rfl⟩

/-- C8 (amended): `get_largest_title` succeeds exactly when the disc-info
process exited 0, produced non-empty stdout, and some "file size" record
has strictly positive parsed size.  Equivalently it fails with a
`SelectionError` exactly when the process exits non-zero, or stdout is
empty, or no positive-size record exists — which covers the claimed
"zero records" case but also the all-zero-records case the claim
excluded. -/
theorem selection_ok_iff (returncode : Int) (stdout : String) :
    (∃ p, get_largest_title returncode stdout = Except.ok p) ↔
      (returncode = 0 ∧ stdout ≠ "" ∧ ∃ r ∈ fileSizeRecords stdout, 0 < r.2) := by
  constructor
  · rintro ⟨p, hp⟩
    by_cases h0 : returncode = 0
    · by_cases h1 : stdout = ""
      · rw [show get_largest_title returncode stdout =
            Except.error "MakeMKV returned an error. Please ensure MakeMKV is installed and the DVD is readable."
            from by simp [get_largest_title, h1]] at hp
        exact Except.noConfusion hp
      · refine ⟨h0, h1, ?_⟩
        by_contra hn
        push_neg at hn
        rw [get_largest_title_spec_nonpos returncode stdout h0 h1 hn] at hp
        exact Except.noConfusion hp
    · rw [show get_largest_title returncode stdout =
          Except.error "MakeMKV returned an error. Please ensure MakeMKV is installed and the DVD is readable."
          from by simp [get_largest_title, h0]] at hp
      exact Except.noConfusion hp
  · rintro ⟨h0, h1, hpos⟩
    rcases get_largest_title_spec_pos returncode stdout h0 h1 hpos with
      ⟨r, _, hok, _⟩
    exact ⟨(r.1, r.2), hok⟩

/-- C8 counterexample: a healthy process result whose text contains
exactly one "file size" record (so the claim as stated promises success),
yet `get_largest_title` fails, because the record's size is 0. -/
theorem selection_ok_iff_cex :
    fileSizeRecords "TINFO:5,11,0,\"0\"" = [("5", 0)] ∧
    get_largest_title 0 "TINFO:5,11,0,\"0\"" =
      Except.error "Could not find any titles on the DVD." :=
  ⟨rfl, rfl⟩

/-- C9 (confirmed): a "file size" record whose size field does not parse
as an integer is treated as a record of size 0 rather than an error, and
a size-0 record never replaces an already-found candidate of strictly
positive size (the accumulator only changes on a strict increase). -/
theorem malformed_size_treated_as_zero (line : String) (st : Option String × Int)
    (h1 : 4 ≤ (pySplit ',' line).length)
    (h2 : pyStrip ((pySplit ',' line).getD 1 "") = "11")
    (h3 : pyInt? (pyStripQuote (pyStrip ((pySplit ',' line).getD 3 ""))) = none) :
    fileSizeRecord? line =
      some (pyStrip (pyDeletePat "TINFO:" ((pySplit ',' line).getD 0 "")), 0) ∧
    (0 < st.2 → stepLine st line = st) := by
  constructor
  · simp only [fileSizeRecord?, if_pos h1, if_pos h2, h3, Option.getD_none]
  · intro hpos
    simp only [stepLine, if_pos h1, if_pos h2, h3, Option.getD_none]
    rw [if_neg (by omega)]

/-- C9 witness: the record `TINFO:2,11,0,"abc"` parses to size 0 and does
not displace an existing candidate of size 5. -/
theorem malformed_size_treated_as_zero_witness :
    fileSizeRecord? "TINFO:2,11,0,\"abc\"" = some ("2", 0) ∧
    ((0 : Int) < 5 → stepLine (some "0", 5) "TINFO:2,11,0,\"abc\"" = (some "0", 5)) :=
  malformed_size_treated_as_zero "TINFO:2,11,0,\"abc\"" (some "0", 5)
    (by decide) (by decide) (by decide)

/-- C2 (confirmed): an operation that raises on its first `k < ATTEMPTS`
attempts and succeeds on attempt `k + 1` makes `run` return the success
value after exactly `k + 1` invocations; the `k = 0` instance is the
first-attempt case, where the result is returned immediately after one
invocation and no further attempts are consumed. -/
theorem run_retries_then_succeeds {α : Type} (f : Nat → Except String α)
    (fname : String) (v : α) (k : Nat)
    (hk : k < ATTEMPTS)
    (hfail : ∀ j, 1 ≤ j → j ≤ k → ∃ e, f j = Except.error e)
    (hsucc : f (k + 1) = Except.ok v) :
    run f fname = some (RunOutcome.ok v (k + 1)) := by
  have hk3 : k < 3 := hk
  have hr : List.range' 1 ATTEMPTS = [1, 2, 3] := rfl
  unfold run
  rw [hr]
  interval_cases k
  · simp [runLoop, hsucc]
  · rcases hfail 1 (by omega) (by omega) with ⟨e1, h1⟩
    simp [runLoop, h1, hsucc, ATTEMPTS]
  · rcases hfail 1 (by omega) (by omega) with ⟨e1, h1⟩
    rcases hfail 2 (by omega) (by omega) with ⟨e2, h2⟩
    simp [runLoop, h1, h2, hsucc, ATTEMPTS]

/-- C2 witness: an operation that fails once and then succeeds is invoked
exactly twice and its value is returned. -/
theorem run_retries_then_succeeds_witness :
    1 < ATTEMPTS ∧ run retryOnceOp "get_largest_title" = some (RunOutcome.ok 7 2) :=
  ⟨by decide,
    run_retries_then_succeeds retryOnceOp "get_largest_title" 7 1 (by decide)
      (fun j hj1 hjk => ⟨"transient", by
        have hj : j = 1 := Nat.le_antisymm hjk hj1
        subst hj
        rfl⟩)
      rfl⟩

/-- C3 (confirmed): an operation that raises on all `ATTEMPTS = 3`
attempts makes `run` escalate exactly once through `error_handler`: the
operation is invoked exactly `ATTEMPTS` times and never more, the
diagnostic message contains the operation's name, the attempt count and
the last error (it is exactly the f-string of the source), exactly one
notification is attempted, and the process exit status is 1 (non-zero).
The outcome carries no success value, so no subsequent pipeline stage can
consume one. -/
theorem run_exhausts_and_escalates {α : Type} (f : Nat → Except String α)
    (fname : String) (errs : Nat → String)
    (hfail : ∀ j, 1 ≤ j → j ≤ ATTEMPTS → f j = Except.error (errs j)) :
    run f fname =
      some (RunOutcome.failed
        (error_handler s!"Error running: {fname}\nAttempts: {ATTEMPTS}\nError: {errs ATTEMPTS}")
        ATTEMPTS) ∧
    (error_handler
      s!"Error running: {fname}\nAttempts: {ATTEMPTS}\nError: {errs ATTEMPTS}").messagesSent.length = 1 ∧
    (error_handler
      s!"Error running: {fname}\nAttempts: {ATTEMPTS}\nError: {errs ATTEMPTS}").exitCode = 1 := by
  have h1 := hfail 1 (by decide) (by decide)
  have h2 := hfail 2 (by decide) (by decide)
  have h3 := hfail 3 (by decide) (by decide)
  refine ⟨?_, rfl, rfl⟩
  have hr : List.range' 1 ATTEMPTS = [1, 2, 3] := rfl
  unfold run
  rw [hr]
  simp [runLoop, h1, h2, h3, ATTEMPTS]

/-- C3 witness: an always-failing operation is invoked exactly 3 times,
one "Movie ERROR" notification is attempted, and the exit status is 1. -/
theorem run_exhausts_and_escalates_witness :
    run alwaysFailOp "rip_dvd" =
      some (RunOutcome.failed
        (error_handler "Error running: rip_dvd\nAttempts: 3\nError: disc read failed") 3) ∧
    (error_handler
      "Error running: rip_dvd\nAttempts: 3\nError: disc read failed").messagesSent.length = 1 ∧
    (error_handler
      "Error running: rip_dvd\nAttempts: 3\nError: disc read failed").exitCode = 1 :=
  run_exhausts_and_escalates alwaysFailOp "rip_dvd" (fun _ => "disc read failed")
    (fun _ _ _ => rfl)

/-- C5 (amended): during a polling tick, only an error raised by the
re-read of the already-selected file's size — the single `getsize` call
inside the `try` block — is caught, logged and skipped.  A
directory-listing error, or a `getsize` error raised while `max` selects
the largest file (for instance a file vanishing between listing and size
reading), is not caught and kills the monitor loop, as the counterexample
shows. -/
theorem monitor_read_error_skips_tick (t : MonitorTick) (current : Int)
    (files : List String) (file err : String)
    (hlist : t.listing = Except.ok files)
    (hsel : pyMaxBy t.sizeAtSelect files = Except.ok file)
    (hread : t.sizeAtRead file = Except.error err) :
    tick t current = TickResult.normal current none := by
  cases files with
  | nil => simp [pyMaxBy] at hsel
  | cons x xs => simp [tick, hlist, hsel, hread]

/-- C5 witness: a tick whose selected file's guarded size read raises is
skipped, leaving the progress state unchanged and the loop alive. -/
theorem monitor_read_error_skips_tick_witness :
    readErrorTick.listing = Except.ok ["a.mkv", "b.mkv"] ∧
    pyMaxBy readErrorTick.sizeAtSelect ["a.mkv", "b.mkv"] = Except.ok "a.mkv" ∧
    tick readErrorTick 3 = TickResult.normal 3 none :=
  ⟨rfl, rfl,
    monitor_read_error_skips_tick readErrorTick 3 ["a.mkv", "b.mkv"] "a.mkv"
      "OSError: stale handle" rfl rfl rfl⟩

/-- C5 counterexample: the file listed by `glob` vanishes before `max`
evaluates its `getsize` key (the claim's own "file disappearing between
listing and size reading" case); the error is raised outside the `try`
block, the tick is fatal, and the polling loop ends with no report —
contradicting "never fatal, never interrupts the loop". -/
theorem monitor_read_error_skips_tick_cex :
    tick vanishedFileTick 0 = TickResult.fatal "FileNotFoundError: a.mkv" ∧
    pollRun [vanishedFileTick] 0 = ([], some "FileNotFoundError: a.mkv") :=
  ⟨rfl, rfl⟩

/-- C6 (confirmed): over any schedule of filesystem observations and any
starting high-water mark, the sequence of progress values the polling
loop reports to the bar is monotonically non-decreasing (in fact strictly
increasing): a report is emitted only when the observed size strictly
exceeds the remembered `current_progress`, so no report is ever lower
than an earlier one, even when the observed largest file or its size
shrinks between ticks. -/
theorem monitor_reports_monotone (ticks : List MonitorTick) (start : Int) :
    List.Pairwise (· ≤ ·) (pollRun ticks start).1 :=
  ((pollRun_invariant ticks start).2).imp (fun h => le_of_lt h)

/-- C7 (confirmed): on a successful rip (exit code 0), when at least one
`.mkv` file is present and the rename succeeds, exactly one artifact is
renamed — a most-recently-modified file of the destination listing — and
the returned path is the caller-specified output name with the `.mkv`
extension under the destination directory, regardless of the tool's own
file naming; with no matching file, or with a failing rename, `rip_dvd`
raises the corresponding `RipError`. -/
theorem rip_renames_newest_to_requested (w : RipWorld)
    (output_file_name output_directory : String) (expected : Int)
    (h0 : w.returncode = 0) :
    (w.mkvFiles ≠ [] → w.renameResult = Except.ok () →
      ∃ src mtime, (src, mtime) ∈ w.mkvFiles ∧
        (∀ x ∈ w.mkvFiles, x.2 ≤ mtime) ∧
        (rip_dvd w output_file_name output_directory expected).1.filter isRenameEvent =
          [RipEvent.renamed src (pathJoin output_directory (output_file_name ++ ".mkv"))] ∧
        (rip_dvd w output_file_name output_directory expected).2 =
          Except.ok (pathJoin output_directory (output_file_name ++ ".mkv"))) ∧
    (w.mkvFiles = [] →
      (rip_dvd w output_file_name output_directory expected).2 =
        Except.error "No MKV file found after ripping.") ∧
    (∀ e, w.renameResult = Except.error e → w.mkvFiles ≠ [] →
      (rip_dvd w output_file_name output_directory expected).2 =
        Except.error ("Error renaming MKV file: " ++ e)) := by
  refine ⟨?_, ?_, ?_⟩
  · intro hne hok
    cases hs : newestFirst w.mkvFiles with
    | nil =>
      exact absurd (List.Perm.eq_nil ((hs ▸ newestFirst_perm w.mkvFiles).symm)) hne
    | cons ripped rest =>
      rcases newestFirst_head_max w.mkvFiles ripped rest hs with ⟨hmem, hmax⟩
      refine ⟨ripped.1, ripped.2, by simpa using hmem, hmax, ?_, ?_⟩
      · simp [rip_dvd, h0, hs, hok, isRenameEvent]
      · simp [rip_dvd, h0, hs, hok]
  · intro hnil
    have hs : newestFirst w.mkvFiles = [] := by rw [hnil]; rfl
    simp [rip_dvd, h0, hs]
  · intro e herr hne
    cases hs : newestFirst w.mkvFiles with
    | nil =>
      exact absurd (List.Perm.eq_nil ((hs ▸ newestFirst_perm w.mkvFiles).symm)) hne
    | cons ripped rest =>
      simp [rip_dvd, h0, hs, herr]

/-- C7 witness: a successful rip over two candidate files renames the
most recently modified one and returns `temp/D/movie.mkv`. -/
theorem rip_renames_newest_to_requested_witness :
    okRipWorld.returncode = 0 ∧
    (rip_dvd okRipWorld "movie" "temp/D" 999).2 =
      Except.ok (pathJoin "temp/D" ("movie" ++ ".mkv")) := by
  obtain ⟨src, mtime, hmem, hmax, hfil, hres⟩ :=
    (rip_renames_newest_to_requested okRipWorld "movie" "temp/D" 999 rfl).1
      (by decide) rfl
  exact ⟨rfl, hres⟩

/-- C10 (confirmed): when the ripping process exits non-zero, `rip_dvd`
still emits — in program order, before the exit-code check — the stop
signal, the monitor join, the forcing of the progress bar to the full
expected size, a refresh, and the close; only then is the `RipError`
raised, so the progress display already shows 100% on a failed rip. -/
theorem rip_failure_still_forces_full_bar (w : RipWorld)
    (output_file_name output_directory : String) (expected : Int)
    (h : w.returncode ≠ 0) :
    (rip_dvd w output_file_name output_directory expected).1 =
      [RipEvent.stopSet, RipEvent.monitorJoined, RipEvent.barSet expected,
       RipEvent.barRefreshed, RipEvent.barClosed] ∧
    (rip_dvd w output_file_name output_directory expected).2 =
      Except.error "MakeMKV returned an error during ripping." := by
  simp [rip_dvd, h]

/-- C10 witness: a rip whose process exited 1 still sets the bar to the
expected size and closes it before raising. -/
theorem rip_failure_still_forces_full_bar_witness :
    failedRipWorld.returncode ≠ 0 ∧
    (rip_dvd failedRipWorld "movie" "temp/D" 555).1 =
      [RipEvent.stopSet, RipEvent.monitorJoined, RipEvent.barSet 555,
       RipEvent.barRefreshed, RipEvent.barClosed] ∧
    (rip_dvd failedRipWorld "movie" "temp/D" 555).2 =
      Except.error "MakeMKV returned an error during ripping." := by
  have h := rip_failure_still_forces_full_bar failedRipWorld "movie" "temp/D" 555 (by decide)
  exact ⟨by decide, h.1, h.2⟩

end DvDRipper
